import Mathlib

/-!
Shallow embedding of the viewer theme-asset generator
(scripts/generate-viewer-industrial-theme-assets.py) and the theme-pack
validator (scripts/validate-viewer-theme-pack.py).

Byte streams are modelled as lists of naturals (each entry a byte value).
Python floats are modelled by rationals; the opaque platform float
operations (math.cos, math.sin, math.sqrt, math.atan2, math.pi) and the
opaque byte-level encodings (zlib.compress, zlib.crc32, IEEE-754 packing
of a 32-bit float) are passed in as function parameters, since no claim
depends on their values, only on the shapes and lengths they produce.
Fallible Python code (struct.pack range errors, IndexError, min() on an
empty sequence) is modelled with Option / Except.
-/

namespace AgentWorld

/-! ## Byte-level helpers (struct.pack / struct.unpack) -/

/-- The four big-endian base-256 digits of a 32-bit value. -/
def u32be (n : Nat) : List Nat :=
  [n / 16777216, n / 65536 % 256, n / 256 % 256, n % 256]

/-- struct.pack of a big-endian unsigned 32-bit value; fails (as struct.error
does) when the value does not fit. -/
def pack_u32_be (n : Nat) : Option (List Nat) :=
  if n < 4294967296 then some (u32be n) else none

/-- struct.pack of a little-endian unsigned 16-bit value; fails when the value
does not fit. -/
def pack_u16_le (n : Nat) : Option (List Nat) :=
  if n < 65536 then some [n % 256, n / 256] else none

/-- struct.unpack of one big-endian unsigned 32-bit value from a 4-byte
slice (0 on a slice of any other size, which callers exclude). -/
def be32 : List Nat → Nat
  | [b0, b1, b2, b3] => b0 * 16777216 + b1 * 65536 + b2 * 256 + b3
  | _ => 0

/-! ## PNG encoder (write_png) and validator header parser (read_png_size) -/

/-- The 8-byte PNG signature 89 50 4E 47 0D 0A 1A 0A. -/
def pngSignature : List Nat := [137, 80, 78, 71, 13, 10, 26, 10]

/-- ASCII bytes of the chunk type IHDR. -/
def ihdrType : List Nat := [73, 72, 68, 82]

/-- ASCII bytes of the chunk type IDAT. -/
def idatType : List Nat := [73, 68, 65, 84]

/-- ASCII bytes of the chunk type IEND. -/
def iendType : List Nat := [73, 69, 78, 68]

/-- One PNG chunk: big-endian length, 4-byte type, payload, and a CRC32 of
type plus payload masked to 32 bits.  The CRC function itself (zlib.crc32)
is an opaque parameter. -/
def png_chunk (crc32f : List Nat → Nat) (ctype data : List Nat) :
    Option (List Nat) := do
  let lenB ← pack_u32_be data.length
  let crcB ← pack_u32_be (crc32f (ctype ++ data) &&& 4294967295)
  some (lenB ++ ctype ++ data ++ crcB)

/-- The concatenated scanlines: every row is a filter-type byte 0 followed by
3 bytes (R, G, B) per pixel, rows top to bottom. -/
def png_raw (width height : Nat)
    (pixel_fn : Nat → Nat → Fin 256 × Fin 256 × Fin 256) : List Nat :=
  (List.range height).flatMap fun y =>
    0 :: (List.range width).flatMap fun x =>
      [(pixel_fn x y).1.val, (pixel_fn x y).2.1.val, (pixel_fn x y).2.2.val]

/-- The PNG byte stream produced by write_png: signature, IHDR chunk holding
width, height, bit depth 8, color type 2 and three zero flags, an IDAT chunk
holding the compressed scanlines (zlib.compress is an opaque parameter), and
an empty IEND chunk. -/
def write_png (crc32f : List Nat → Nat) (compress : List Nat → List Nat)
    (width height : Nat)
    (pixel_fn : Nat → Nat → Fin 256 × Fin 256 × Fin 256) :
    Option (List Nat) := do
  let raw := png_raw width height pixel_fn
  let compressed := compress raw
  let wB ← pack_u32_be width
  let hB ← pack_u32_be height
  let ihdr ← png_chunk crc32f ihdrType (wB ++ hB ++ [8, 2, 0, 0, 0])
  let idat ← png_chunk crc32f idatType compressed
  let iend ← png_chunk crc32f iendType []
  some (pngSignature ++ ihdr ++ idat ++ iend)

/-- The validator header parser: rejects streams shorter than 33 bytes, a bad
8-byte signature, or a missing IHDR type at offset 12, and otherwise unpacks
width and height from bytes 16..24. -/
def read_png_size (data : List Nat) : Except String (Nat × Nat) :=
  if data.length < 33 then .error "png too short"
  else if data.take 8 ≠ pngSignature then .error "invalid png signature"
  else if (data.drop 12).take 4 ≠ ihdrType then .error "missing IHDR chunk"
  else
    let s := (data.drop 16).take 8
    .ok (be32 (s.take 4), be32 (s.drop 4))

/-! ## hash_noise -/

/-- Low 32 bits of a (possibly negative) integer, as Python's mask with
0xFFFFFFFF computes them on two's-complement integers. -/
def toU32 (n : Int) : Nat := (n % 4294967296).toNat

/-- hash_noise from the generator: an integer mixing function.  Python masks
the three-way xor with 0xFFFFFFFF; masking to the low 32 bits commutes with
two's-complement xor, so each product is masked before the Nat xor here.
The final value divides the mixed 32-bit word by 0xFFFFFFFF (not 2^32). -/
def hash_noise (x y seed : Int) : ℚ :=
  let n : Nat := toU32 (x * 73856093) ^^^ toU32 (y * 19349663) ^^^
    toU32 (seed * 83492791)
  let n2 : Nat := ((n ^^^ (n >>> 13)) * 1274126177) &&& 4294967295
  (n2 : ℚ) / 4294967295

/-! ## Mesh data model and vector math -/

/-- A 3-component float vector (modelled over the rationals). -/
abbrev Vec3 : Type := ℚ × ℚ × ℚ

/-- A 2-component float vector. -/
abbrev Vec2 : Type := ℚ × ℚ

/-- MeshData: an ordered vertex list and an ordered index list. -/
structure MeshData where
  vertices : List Vec3
  indices : List Nat

/-- The opaque platform float operations used by the generator. -/
structure FloatModel where
  pi : ℚ
  cosf : ℚ → ℚ
  sinf : ℚ → ℚ
  sqrtf : ℚ → ℚ
  atan2f : ℚ → ℚ → ℚ

/-- Componentwise vector sum. -/
def add3 (a b : Vec3) : Vec3 := (a.1 + b.1, a.2.1 + b.2.1, a.2.2 + b.2.2)

/-- Componentwise vector difference. -/
def sub3 (a b : Vec3) : Vec3 := (a.1 - b.1, a.2.1 - b.2.1, a.2.2 - b.2.2)

/-- Cross product. -/
def cross3 (a b : Vec3) : Vec3 :=
  (a.2.1 * b.2.2 - a.2.2 * b.2.1,
   a.2.2 * b.1 - a.1 * b.2.2,
   a.1 * b.2.1 - a.2.1 * b.1)

/-- Vector length through the opaque square root. -/
def len3 (fm : FloatModel) (v : Vec3) : ℚ :=
  fm.sqrtf (v.1 * v.1 + v.2.1 * v.2.1 + v.2.2 * v.2.2)

/-- Normalization with the (0, 1, 0) fallback for a near-zero length. -/
def normalize3 (fm : FloatModel) (v : Vec3) : Vec3 :=
  let l := len3 fm v
  if l ≤ 1 / 100000000 then (0, 1, 0)
  else (v.1 / l, v.2.1 / l, v.2.2 / l)

/-- transform_mesh: scale then translate every vertex, indices unchanged. -/
def transform_mesh (mesh : MeshData) (scale : Vec3 := (1, 1, 1))
    (translate : Vec3 := (0, 0, 0)) : MeshData :=
  { vertices := mesh.vertices.map fun v =>
      (v.1 * scale.1 + translate.1,
       v.2.1 * scale.2.1 + translate.2.1,
       v.2.2 * scale.2.2 + translate.2.2),
    indices := mesh.indices }

/-- The loop body of merge_meshes: accumulated vertices, accumulated rebased
indices, and the running vertex offset. -/
def mergeAux : List MeshData → List Vec3 → List Nat → Nat → MeshData
  | [], vs, is, _ => { vertices := vs, indices := is }
  | m :: rest, vs, is, offset =>
      mergeAux rest (vs ++ m.vertices)
        (is ++ m.indices.map fun idx => offset + idx)
        (offset + m.vertices.length)

/-- merge_meshes: concatenates vertex lists in order and rebases every index
by the cumulative vertex offset of the meshes before it. -/
def merge_meshes (meshes : List MeshData) : MeshData :=
  mergeAux meshes [] [] 0

/-! ## Primitive builders -/

/-- build_box: 8 corner vertices and 36 indices (two triangles per face). -/
def build_box (size : Vec3) : MeshData :=
  let hx := size.1 * (1 / 2)
  let hy := size.2.1 * (1 / 2)
  let hz := size.2.2 * (1 / 2)
  { vertices :=
      [(-hx, -hy, -hz), (hx, -hy, -hz), (hx, hy, -hz), (-hx, hy, -hz),
       (-hx, -hy, hz), (hx, -hy, hz), (hx, hy, hz), (-hx, hy, hz)],
    indices :=
      [0, 1, 2, 0, 2, 3,
       4, 6, 5, 4, 7, 6,
       0, 4, 5, 0, 5, 1,
       3, 2, 6, 3, 6, 7,
       0, 3, 7, 0, 7, 4,
       1, 5, 6, 1, 6, 2] }

/-- build_octahedron: 6 axis-extreme vertices and 8 triangles. -/
def build_octahedron (radius : ℚ) : MeshData :=
  { vertices :=
      [(0, radius, 0), (-radius, 0, 0), (0, 0, radius),
       (radius, 0, 0), (0, 0, -radius), (0, -radius, 0)],
    indices :=
      [0, 1, 2,
       0, 2, 3,
       0, 3, 4,
       0, 4, 1,
       5, 2, 1,
       5, 3, 2,
       5, 4, 3,
       5, 1, 4] }

/-- The two ring vertices the prism loop appends for side i. -/
def prismRingVerts (fm : FloatModel) (radius half_h : ℚ) (sides i : Nat) :
    List Vec3 :=
  let ang : ℚ := (2 * fm.pi * i) / sides
  let x := fm.cosf ang * radius
  let z := fm.sinf ang * radius
  [(x, half_h, z), (x, -half_h, z)]

/-- The twelve indices the prism loop appends for side i: the top cap fan,
the bottom cap fan, and the barrel quad split into two triangles. -/
def prismSideIdx (sides i : Nat) : List Nat :=
  let top_center : Nat := 0
  let bottom_center : Nat := 1
  let ni := (i + 1) % sides
  let top_i := 2 + i * 2
  let bot_i := top_i + 1
  let top_n := 2 + ni * 2
  let bot_n := top_n + 1
  [top_center, top_n, top_i, bottom_center, bot_i, bot_n,
   top_i, top_n, bot_i, bot_i, top_n, bot_n]

/-- build_prism: top and bottom center vertices, then a top and bottom ring
vertex per side; per side one top fan triangle, one bottom fan triangle and
one quad split into two triangles. -/
def build_prism (fm : FloatModel) (radius height : ℚ) (sides : Nat) :
    MeshData :=
  let half_h : ℚ := height * (1 / 2)
  { vertices := [(0, half_h, 0), (0, -half_h, 0)] ++
      (List.range sides).flatMap (prismRingVerts fm radius half_h sides),
    indices := (List.range sides).flatMap (prismSideIdx sides) }

/-! ## Normal and UV derivation -/

/-- The accumulation loop of compute_normals: walks the index list three at a
time, adding the face cross product into the running per-vertex sums; fails
(as Python indexing does) on an out-of-range index or a trailing partial
triangle. -/
def normalsGo (vertices : List Vec3) :
    List Nat → List Vec3 → Option (List Vec3)
  | [], normals => some normals
  | i0 :: i1 :: i2 :: rest, normals => do
      let p0 ← vertices.get? i0
      let p1 ← vertices.get? i1
      let p2 ← vertices.get? i2
      let face := cross3 (sub3 p1 p0) (sub3 p2 p0)
      let n0 ← normals.get? i0
      let normals := normals.set i0 (add3 n0 face)
      let n1 ← normals.get? i1
      let normals := normals.set i1 (add3 n1 face)
      let n2 ← normals.get? i2
      let normals := normals.set i2 (add3 n2 face)
      normalsGo vertices rest normals
  | _, _ => none

/-- compute_normals: area-weighted accumulation of face normals followed by
per-vertex normalization. -/
def compute_normals (fm : FloatModel) (vertices : List Vec3)
    (indices : List Nat) : Option (List Vec3) :=
  (normalsGo vertices indices
      (List.replicate vertices.length ((0 : ℚ), (0 : ℚ), (0 : ℚ)))).map
    fun ns => ns.map (normalize3 fm)

/-- Minimum y coordinate of a vertex list (0 on the empty list, which the
callers exclude). -/
def minY : List Vec3 → ℚ
  | [] => 0
  | v :: vs => (vs.map fun p => p.2.1).foldl min v.2.1

/-- Maximum y coordinate of a vertex list. -/
def maxY : List Vec3 → ℚ
  | [] => 0
  | v :: vs => (vs.map fun p => p.2.1).foldl max v.2.1

/-- The height span used by compute_uvs as divisor, clamped below by 1e-6. -/
def spanY (vertices : List Vec3) : ℚ :=
  max (maxY vertices - minY vertices) (1 / 1000000)

/-- compute_uvs: cylindrical wrap for u and normalized height for v; fails on
the empty vertex list (Python min on an empty sequence raises). -/
def compute_uvs (fm : FloatModel) (vertices : List Vec3) :
    Option (List Vec2) :=
  match vertices with
  | [] => none
  | _ :: _ =>
      let min_y := minY vertices
      let span_y := spanY vertices
      some (vertices.map fun v =>
        (1 / 2 + fm.atan2f v.2.2 v.1 / (2 * fm.pi),
         1 - ((v.2.1 - min_y) / span_y)))

/-! ## glTF document model and exporter (write_gltf) -/

/-- Four bytes, the fixed-size result of struct.pack of one 32-bit float. -/
abbrev Byte4 : Type := Nat × Nat × Nat × Nat

/-- The four bytes as a list. -/
def b4 (b : Byte4) : List Nat := [b.1, b.2.1, b.2.2.1, b.2.2.2]

/-- The padding loop of append_blob: append zero bytes until the buffer
length is a multiple of the alignment. -/
def padTo (buf : List Nat) (align : Nat) : List Nat :=
  buf ++ List.replicate ((align - buf.length % align) % align) 0

/-- The glTF asset header. -/
structure GltfAsset where
  version : String
  generator : String
deriving DecidableEq

/-- One glTF node. -/
structure GltfNode where
  mesh : Nat
  name : String
deriving DecidableEq

/-- The attribute map of a glTF primitive; POSITION is optional so that
foreign documents lacking it are representable. -/
structure GltfPrimAttributes where
  position : Option Nat
  normal : Nat
  texcoord0 : Nat
deriving DecidableEq

/-- One glTF primitive. -/
structure GltfPrimitive where
  attributes : GltfPrimAttributes
  indices : Nat
deriving DecidableEq

/-- One glTF mesh. -/
structure GltfMesh where
  name : String
  primitives : List GltfPrimitive
deriving DecidableEq

/-- One glTF buffer declaration. -/
structure GltfBufferDecl where
  uri : Option String
  byteLength : Nat
deriving DecidableEq

/-- One glTF buffer view. -/
structure GltfBufferView where
  buffer : Nat
  byteOffset : Nat
  byteLength : Nat
  target : Option Nat
deriving DecidableEq

/-- One glTF accessor. -/
structure GltfAccessor where
  bufferView : Nat
  componentType : Nat
  count : Nat
  type : String
  minVals : Option (List ℚ)
  maxVals : Option (List ℚ)
deriving DecidableEq

/-- A glTF document. -/
structure Gltf where
  asset : GltfAsset
  scene : Nat
  scenes : List (List Nat)
  nodes : List GltfNode
  meshes : List GltfMesh
  buffers : List GltfBufferDecl
  bufferViews : List GltfBufferView
  accessors : List GltfAccessor
deriving DecidableEq

/-- Per-axis minima of a vertex list, none on the empty list. -/
def minPos : List Vec3 → Option (List ℚ)
  | [] => none
  | v :: vs =>
      some [(vs.map fun p => p.1).foldl min v.1,
            (vs.map fun p => p.2.1).foldl min v.2.1,
            (vs.map fun p => p.2.2).foldl min v.2.2]

/-- Per-axis maxima of a vertex list, none on the empty list. -/
def maxPos : List Vec3 → Option (List ℚ)
  | [] => none
  | v :: vs =>
      some [(vs.map fun p => p.1).foldl max v.1,
            (vs.map fun p => p.2.1).foldl max v.2.1,
            (vs.map fun p => p.2.2).foldl max v.2.2]

/-- Minimum of a list of naturals, none on the empty list. -/
def listMinNat : List Nat → Option Nat
  | [] => none
  | n :: ns => some (ns.foldl min n)

/-- Maximum of a list of naturals, none on the empty list. -/
def listMaxNat : List Nat → Option Nat
  | [] => none
  | n :: ns => some (ns.foldl max n)

/-- write_gltf: derives normals and UVs, packs four streams into one binary
buffer through the append_blob padding discipline, and builds the glTF
document.  The result is the document together with the bytes written to the
companion .bin file; the IEEE-754 encoding of one float is the opaque
4-byte-valued parameter. -/
def write_gltf (fm : FloatModel) (packF32 : ℚ → Byte4)
    (stem mesh_name : String) (vertices : List Vec3) (indices : List Nat) :
    Option (Gltf × List Nat) := do
  let normals ← compute_normals fm vertices indices
  let uvs ← compute_uvs fm vertices
  let pos_blob := vertices.flatMap fun v =>
    b4 (packF32 v.1) ++ b4 (packF32 v.2.1) ++ b4 (packF32 v.2.2)
  let nrm_blob := normals.flatMap fun n =>
    b4 (packF32 n.1) ++ b4 (packF32 n.2.1) ++ b4 (packF32 n.2.2)
  let uv_blob := uvs.flatMap fun uv => b4 (packF32 uv.1) ++ b4 (packF32 uv.2)
  let idxBytes ← indices.mapM pack_u16_le
  let idx_blob := idxBytes.flatten
  let b := padTo [] 4
  let o0 := b.length
  let b := b ++ pos_blob
  let b := padTo b 4
  let o1 := b.length
  let b := b ++ nrm_blob
  let b := padTo b 4
  let o2 := b.length
  let b := b ++ uv_blob
  let b := padTo b 2
  let o3 := b.length
  let b := b ++ idx_blob
  let buffer_views : List GltfBufferView :=
    [⟨0, o0, pos_blob.length, some 34962⟩,
     ⟨0, o1, nrm_blob.length, some 34962⟩,
     ⟨0, o2, uv_blob.length, some 34962⟩,
     ⟨0, o3, idx_blob.length, some 34963⟩]
  let min_pos ← minPos vertices
  let max_pos ← maxPos vertices
  let idx_min ← listMinNat indices
  let idx_max ← listMaxNat indices
  let accessors : List GltfAccessor :=
    [⟨0, 5126, vertices.length, "VEC3", some min_pos, some max_pos⟩,
     ⟨1, 5126, normals.length, "VEC3", none, none⟩,
     ⟨2, 5126, uvs.length, "VEC2", none, none⟩,
     ⟨3, 5123, indices.length, "SCALAR",
      some [(idx_min : ℚ)], some [(idx_max : ℚ)]⟩]
  let bin_name := stem ++ ".bin"
  some ({ asset := ⟨"2.0", "generate-viewer-industrial-theme-assets.py"⟩,
          scene := 0,
          scenes := [[0]],
          nodes := [⟨0, mesh_name ++ "Node"⟩],
          meshes := [⟨mesh_name, [⟨⟨some 0, 1, 2⟩, 3⟩]⟩],
          buffers := [⟨some bin_name, b.length⟩],
          bufferViews := buffer_views,
          accessors := accessors }, b)

/-- The agent mesh of generate_meshes: an octahedron of radius 0.56 merged
with a 6-sided prism of radius 0.16 and height 0.55 translated up by 0.54. -/
def agentMesh (fm : FloatModel) : MeshData :=
  merge_meshes
    [build_octahedron (56 / 100),
     transform_mesh (build_prism fm (16 / 100) (55 / 100) 6)
       (1, 1, 1) (0, 54 / 100, 0)]

/-! ## Theme pack validator -/

/-- The fixed entity set. -/
def ENTITIES : List String :=
  ["agent", "location", "asset", "power_plant", "power_storage"]

/-- The four texture channels. -/
def TEXTURE_CHANNELS : List String :=
  ["base", "normal", "metallic_roughness", "emissive"]

/-- ThemeValidationProfile: a named validation policy. -/
structure ThemeValidationProfile where
  name : String
  mesh_suffix : String
  preset_files : List String
  min_texture_size : Nat
  min_vertices : String → Nat

/-- The v1 profile. -/
def profileV1 : ThemeValidationProfile :=
  { name := "v1",
    mesh_suffix := "",
    preset_files :=
      ["industrial_default.env", "industrial_matte.env",
       "industrial_glossy.env"],
    min_texture_size := 256,
    min_vertices := fun e =>
      if e = "agent" then 18
      else if e = "location" then 300
      else if e = "asset" then 16
      else if e = "power_plant" then 30
      else if e = "power_storage" then 200
      else 0 }

/-- The v2 profile. -/
def profileV2 : ThemeValidationProfile :=
  { name := "v2",
    mesh_suffix := "_v2",
    preset_files :=
      ["industrial_v2_default.env", "industrial_v2_matte.env",
       "industrial_v2_glossy.env"],
    min_texture_size := 512,
    min_vertices := fun e =>
      if e = "agent" then 48
      else if e = "location" then 1200
      else if e = "asset" then 90
      else if e = "power_plant" then 90
      else if e = "power_storage" then 900
      else 0 }

/-- The profile table of the validator CLI. -/
def PROFILES : List (String × ThemeValidationProfile) :=
  [("v1", profileV1), ("v2", profileV2)]

/-- Validation errors, one constructor per append site of the validator; the
carried strings are the file names the Python messages embed. -/
inductive Err where
  | missingDirectory (name : String)
  | missingPreset (path : String)
  | missingMeshFile (path : String)
  | parseFailed (path : String)
  | missingPosition (path : String)
  | missingBuffer (path : String) (uri : String)
  | vertexBudget (path : String) (count required : Nat)
  | missingTexture (path : String)
  | invalidPng (path : String) (cause : String)
  | textureTooSmall (path : String) (w h m : Nat)
  | notSquare (path : String) (w h : Nat)
deriving DecidableEq

/-- The on-disk state of one theme directory, as the validator observes it:
directory presence, preset presence, mesh files (present or not; when
present, parsed glTF JSON or unparsable), texture file bytes, and presence of
buffer files referenced from the mesh directory. -/
structure ThemeDir where
  meshesDirExists : Bool
  texturesDirExists : Bool
  presetsDirExists : Bool
  presetExists : String → Bool
  meshFile : String → Option (Option Gltf)
  textureFile : String → Option (List Nat)
  binExists : String → Bool

/-- The POSITION accessor chain the validator reads: first mesh, first
primitive, POSITION attribute, that accessor's count. -/
def positionCount (g : Gltf) : Option Nat := do
  let m ← g.meshes.get? 0
  let p ← m.primitives.get? 0
  let i ← p.attributes.position
  let a ← g.accessors.get? i
  some a.count

/-- validate_mesh: an unparsable document or a missing POSITION chain yields
vertex count 0 with a single error; otherwise the declared count plus one
error per referenced buffer file missing on disk. -/
def validate_mesh (path : String) (content : Option Gltf)
    (fileExists : String → Bool) : Nat × List Err :=
  match content with
  | none => (0, [Err.parseFailed path])
  | some g =>
      match positionCount g with
      | none => (0, [Err.missingPosition path])
      | some n =>
          (n, g.buffers.filterMap fun b =>
            match b.uri with
            | none => none
            | some uri =>
                if fileExists uri then none
                else some (Err.missingBuffer path uri))

/-- The suffixed mesh file name of one entity. -/
def meshFileName (profile : ThemeValidationProfile) (entity : String) :
    String :=
  entity ++ "_industrial" ++ profile.mesh_suffix ++ ".gltf"

/-- The texture checks of one texture file: missing, invalid PNG header,
below minimum size, non-square; the last two can both fire. -/
def validateTexture (td : ThemeDir) (min_texture_size : Nat)
    (name : String) : List Err :=
  match td.textureFile name with
  | none => [Err.missingTexture name]
  | some bytes =>
      match read_png_size bytes with
      | .error cause => [Err.invalidPng name cause]
      | .ok (w, h) =>
          (if w < min_texture_size ∨ h < min_texture_size then
            [Err.textureTooSmall name w h min_texture_size] else []) ++
          (if w ≠ h then [Err.notSquare name w h] else [])

/-- The per-entity pass of validate_theme_pack: the mesh file check (presence,
validate_mesh errors, vertex budget) followed by the four texture channels. -/
def validateEntity (td : ThemeDir) (profile : ThemeValidationProfile)
    (min_texture_size : Nat) (entity : String) : List Err :=
  let mesh_name := meshFileName profile entity
  (match td.meshFile mesh_name with
   | none => [Err.missingMeshFile mesh_name]
   | some content =>
       let vm := validate_mesh mesh_name content td.binExists
       vm.2 ++
         (if vm.1 < profile.min_vertices entity then
           [Err.vertexBudget mesh_name vm.1 (profile.min_vertices entity)]
          else [])) ++
  TEXTURE_CHANNELS.flatMap fun channel =>
    validateTexture td min_texture_size (entity ++ "_" ++ channel ++ ".png")

/-- validate_theme_pack: one pass accumulating directory, preset, mesh and
texture errors over the whole pack. -/
def validate_theme_pack (td : ThemeDir) (profile : ThemeValidationProfile)
    (min_texture_size : Nat) : List Err :=
  (if td.meshesDirExists then [] else [Err.missingDirectory "meshes"]) ++
  (if td.texturesDirExists then [] else [Err.missingDirectory "textures"]) ++
  (if td.presetsDirExists then [] else [Err.missingDirectory "presets"]) ++
  (profile.preset_files.filterMap fun preset =>
    if td.presetExists preset then none else some (Err.missingPreset preset)) ++
  ENTITIES.flatMap (validateEntity td profile min_texture_size)

/-- The decision of the validator CLI main: the profile-default minimum
texture size unless overridden positively, exit code 0 with nothing printed
on an empty error list, else exit code 1 with the errors printed one per
line (returned here as the printed list). -/
def mainResult (td : ThemeDir) (profile : ThemeValidationProfile)
    (minTexArg : Nat) : Nat × List Err :=
  let min_texture_size :=
    if minTexArg > 0 then minTexArg else profile.min_texture_size
  let errors := validate_theme_pack td profile min_texture_size
  if errors.isEmpty then (0, []) else (1, errors)

/-! ## Shared helper lemmas and witness fixtures -/

/-- A concrete instantiation of the opaque float operations, used to
evaluate claims on concrete inputs. -/
def fmZero : FloatModel :=
  { pi := 0, cosf := fun _ => 0, sinf := fun _ => 0, sqrtf := fun _ => 0,
    atan2f := fun _ _ => 0 }

/-- The byte stream of a concrete 2 by 3 write_png run with the opaque CRC
and compression functions fixed to constants. -/
def write_png_witness_bytes : List Nat :=
  (write_png (fun _ => 0) (fun _ => []) 2 3 (fun _ _ => (0, 0, 0))).getD []

/-- Decides whether an error is the vertex-budget violation of a given mesh
file path. -/
def isVertexBudgetFor (path : String) : Err → Bool
  | Err.vertexBudget p _ _ => p == path
  | _ => false

/-- A concrete IEEE-754 packing fixed to zero bytes, used to evaluate claims
on concrete inputs. -/
def packZero : ℚ → Byte4 := fun _ => (0, 0, 0, 0)

/-- An empty placeholder document (only a fallback for Option.getD). -/
def emptyGltf : Gltf :=
  { asset := ⟨"", ""⟩, scene := 0, scenes := [], nodes := [], meshes := [],
    buffers := [], bufferViews := [], accessors := [] }

/-- The concrete export of the agent mesh under the zero float model. -/
def agentExportZ : Gltf × List Nat :=
  (write_gltf fmZero packZero "agent_industrial" "AgentIndustrialMesh"
    (agentMesh fmZero).vertices (agentMesh fmZero).indices).getD
    (emptyGltf, [])

/-- A concrete theme directory carrying the exported agent mesh under both
profile file names, with everything else present except textures. -/
def tdC7 : ThemeDir :=
  { meshesDirExists := true, texturesDirExists := true,
    presetsDirExists := true,
    presetExists := fun _ => true,
    meshFile := fun n =>
      if n == "agent_industrial.gltf" || n == "agent_industrial_v2.gltf" then
        some (some agentExportZ.1)
      else none,
    textureFile := fun _ => none,
    binExists := fun _ => true }

/-- A concrete theme directory with nothing on disk. -/
def tdEmpty : ThemeDir :=
  { meshesDirExists := false, texturesDirExists := false,
    presetsDirExists := false,
    presetExists := fun _ => false,
    meshFile := fun _ => none,
    textureFile := fun _ => none,
    binExists := fun _ => false }

/-- A concrete theme directory whose agent mesh file exists but holds
unparsable glTF JSON. -/
def tdBadMesh : ThemeDir :=
  { tdEmpty with
    meshFile := fun n =>
      if n == "agent_industrial.gltf" then some none else none }

/-- Length of a flatMap whose every block has the same length. -/
theorem length_flatMap_const {α β : Type _} (l : List α) (f : α → List β)
    (k : Nat) (h : ∀ a ∈ l, (f a).length = k) :
    (l.flatMap f).length = l.length * k := by
  induction l with
  | nil => simp
  | cons a t ih =>
      rw [List.flatMap_cons, List.length_append, List.length_cons,
        h a (List.mem_cons_self a t),
        ih fun b hb => h b (List.mem_cons_of_mem a hb)]
      ring

/-! ## C3: primitive builder counts -/

/-- C3 counterexample: the claim gives the prism 9 times sides indices, but
the 6-sided prism of the code carries 12 indices per side (top fan 3, bottom
fan 3, barrel quad 6), so a 3-sided prism has 36 indices, not 27. -/
theorem C3_counterexample :
    (build_prism fmZero 1 1 3).indices.length = 36 ∧
      (build_prism fmZero 1 1 3).indices.length ≠ 9 * 3 := by
  constructor
  · rfl
  · decide

/-- C3 amended: for every size the box has 8 vertices and 36 indices, for
every radius the octahedron has 6 vertices and 24 indices, and for every
parameter set with sides at least 3 the prism has 2 + 2 * sides vertices and
12 * sides indices (not 9 * sides as claimed). -/
theorem C3_builder_counts :
    (∀ size : Vec3, (build_box size).vertices.length = 8 ∧
        (build_box size).indices.length = 36) ∧
    (∀ radius : ℚ, (build_octahedron radius).vertices.length = 6 ∧
        (build_octahedron radius).indices.length = 24) ∧
    (∀ (fm : FloatModel) (radius height : ℚ) (sides : Nat), 3 ≤ sides →
        (build_prism fm radius height sides).vertices.length =
            2 + 2 * sides ∧
          (build_prism fm radius height sides).indices.length = 12 * sides) := by
  refine ⟨fun size => ⟨rfl, rfl⟩, fun radius => ⟨rfl, rfl⟩,
    fun fm radius height sides _ => ⟨?_, ?_⟩⟩
  · show ([_, _] ++ (List.range sides).flatMap
      (prismRingVerts fm radius (height * (1 / 2)) sides)).length = 2 + 2 * sides
    rw [List.length_append,
      length_flatMap_const (List.range sides)
        (prismRingVerts fm radius (height * (1 / 2)) sides) 2 fun a _ => rfl,
      List.length_range]
    simp only [List.length_cons, List.length_nil]
    omega
  · show ((List.range sides).flatMap (prismSideIdx sides)).length = 12 * sides
    rw [length_flatMap_const (List.range sides) (prismSideIdx sides) 12
        fun a _ => rfl,
      List.length_range]
    ring

/-- C3 witness: the amended counts evaluated for a 6-sided prism. -/
theorem C3_witness :
    (3 : Nat) ≤ 6 ∧
      ((build_prism fmZero (16 / 100) (55 / 100) 6).vertices.length =
          2 + 2 * 6 ∧
        (build_prism fmZero (16 / 100) (55 / 100) 6).indices.length =
          12 * 6) :=
  ⟨by decide, C3_builder_counts.2.2 fmZero (16 / 100) (55 / 100) 6 (by decide)⟩

/-! ## C4: merge_meshes invariant -/

/-- Vertex count of the merge accumulator. -/
theorem mergeAux_length (ms : List MeshData) :
    ∀ (vs : List Vec3) (is : List Nat) (off : Nat),
      (mergeAux ms vs is off).vertices.length =
        vs.length + (ms.map fun m => m.vertices.length).sum := by
  induction ms with
  | nil => intro vs is off; simp [mergeAux]
  | cons m rest ih =>
      intro vs is off
      rw [mergeAux, ih]
      simp [List.length_append]
      ring

/-- Every index accumulated by the merge loop stays below the final merged
vertex count, provided each input mesh satisfies the mesh invariant and the
running offset equals the accumulated vertex count. -/
theorem mergeAux_indices_lt (ms : List MeshData) :
    ∀ (vs : List Vec3) (is : List Nat),
      (∀ m ∈ ms, ∀ i ∈ m.indices, i < m.vertices.length) →
      (∀ i ∈ is,
        i < vs.length + (ms.map fun m => m.vertices.length).sum) →
      ∀ i ∈ (mergeAux ms vs is vs.length).indices,
        i < (mergeAux ms vs is vs.length).vertices.length := by
  induction ms with
  | nil =>
      intro vs is _ hacc i hi
      rw [mergeAux_length]
      simpa [mergeAux] using hacc i (by simpa [mergeAux] using hi)
  | cons m rest ih =>
      intro vs is hms hacc i hi
      rw [mergeAux] at hi
      rw [mergeAux_length]
      have hlen : (vs ++ m.vertices).length = vs.length + m.vertices.length :=
        List.length_append vs m.vertices
      have key := ih (vs ++ m.vertices)
        (is ++ m.indices.map fun idx => vs.length + idx)
        (fun m' hm' => hms m' (List.mem_cons_of_mem m hm'))
        (by
          intro j hj
          rcases List.mem_append.mp hj with hj | hj
          · have := hacc j hj
            rw [hlen]
            simp only [List.map_cons, List.sum_cons] at this
            omega
          · rcases List.mem_map.mp hj with ⟨idx, hidx, rfl⟩
            have := hms m (List.mem_cons_self m rest) idx hidx
            rw [hlen]
            omega)
      rw [mergeAux_length] at key
      rw [hlen] at key
      have hsum : vs.length + m.vertices.length +
          (rest.map fun m' => m'.vertices.length).sum =
          vs.length + ((m :: rest).map fun m' => m'.vertices.length).sum := by
        simp only [List.map_cons, List.sum_cons]
        ring
      rw [hsum] at key
      have hi' : i ∈ (mergeAux rest (vs ++ m.vertices)
          (is ++ m.indices.map fun idx => vs.length + idx)
          (vs.length + m.vertices.length)).indices := by
        rw [← hlen]
        simpa [hlen] using hi
      have := key i (by rw [← hlen] at hi' ⊢; exact hi')
      simpa [List.map_cons, List.sum_cons] using this

/-- C4: for input meshes each satisfying the mesh invariant, the merged
vertex count is the sum of the input vertex counts and every merged index is
strictly below it. -/
theorem C4_merge_invariant (meshes : List MeshData)
    (h : ∀ m ∈ meshes, ∀ i ∈ m.indices, i < m.vertices.length) :
    (merge_meshes meshes).vertices.length =
        (meshes.map fun m => m.vertices.length).sum ∧
      ∀ i ∈ (merge_meshes meshes).indices,
        i < (merge_meshes meshes).vertices.length := by
  constructor
  · rw [merge_meshes, mergeAux_length]; simp
  · intro i hi
    exact mergeAux_indices_lt meshes [] [] h (by intro j hj; cases hj) i hi

/-- C4 witness: merging a box with an octahedron gives 14 vertices with all
indices in range. -/
theorem C4_witness :
    (∀ m ∈ [build_box (1, 1, 1), build_octahedron 1], ∀ i ∈ m.indices,
        i < m.vertices.length) ∧
      ((merge_meshes [build_box (1, 1, 1), build_octahedron 1]).vertices.length =
          ([build_box (1, 1, 1), build_octahedron 1].map
            fun m => m.vertices.length).sum ∧
        ∀ i ∈ (merge_meshes [build_box (1, 1, 1), build_octahedron 1]).indices,
          i < (merge_meshes
            [build_box (1, 1, 1), build_octahedron 1]).vertices.length) :=
  ⟨by decide, C4_merge_invariant [build_box (1, 1, 1), build_octahedron 1]
    (by decide)⟩

/-! ## C5: hash_noise determinism and range -/

/-- C5 counterexample: hash_noise divides by 0xFFFFFFFF, whose quotient
reaches exactly 1; the seed below drives the mixed 32-bit word to
0xFFFFFFFF at x = y = 0, so the output is not strictly below 1. -/
theorem C5_counterexample : hash_noise 0 0 3955148007 = 1 := by
  simp [hash_noise, toU32]
  rw [Nat.and_pow_two_sub_one_eq_mod 3680290057840754687 32]
  norm_num

/-- C5 amended: hash_noise is a pure deterministic function whose output
lies in the closed interval from 0 to 1 (the right endpoint 1 is attained,
so the half-open interval of the claim is off by the endpoint). -/
theorem C5_range :
    ∀ x y seed : ℤ, hash_noise x y seed = hash_noise x y seed ∧
      0 ≤ hash_noise x y seed ∧ hash_noise x y seed ≤ 1 := by
  intro x y seed
  refine ⟨rfl, ?_, ?_⟩
  · unfold hash_noise
    positivity
  · unfold hash_noise
    rw [div_le_one (by norm_num)]
    have hle : (((toU32 (x * 73856093) ^^^ toU32 (y * 19349663) ^^^
        toU32 (seed * 83492791)) ^^^
        ((toU32 (x * 73856093) ^^^ toU32 (y * 19349663) ^^^
          toU32 (seed * 83492791)) >>> 13)) * 1274126177) &&& 4294967295 ≤
        4294967295 := Nat.and_le_right
    exact_mod_cast Nat.cast_le.mpr hle

/-! ## C9: compute_uvs totality -/

/-- C9: on every non-empty vertex list the UV derivation is total: the height
divisor is clamped below by 1e-6 (hence positive, never a division by zero),
the result has one UV pair per vertex, and on a flat mesh (max y equal to
min y, where the unclamped spec formula would divide by zero) the divisor is
exactly the clamp value. -/
theorem C9_compute_uvs_total (fm : FloatModel) (vertices : List Vec3)
    (h : vertices ≠ []) :
    (1 / 1000000 : ℚ) ≤ spanY vertices ∧ 0 < spanY vertices ∧
      (∃ uvs, compute_uvs fm vertices = some uvs ∧
        uvs.length = vertices.length) ∧
      (maxY vertices = minY vertices → spanY vertices = 1 / 1000000) := by
  refine ⟨le_max_right _ _, lt_of_lt_of_le (by norm_num) (le_max_right _ _),
    ?_, ?_⟩
  · match vertices, h with
    | v :: vs, _ =>
        exact ⟨_, rfl, by simp⟩
  · intro hflat
    rw [spanY, hflat, sub_self]
    exact max_eq_right (by norm_num)

/-- C9 witness: a flat two-vertex mesh evaluates to two finite UV pairs with
the clamped divisor. -/
theorem C9_witness :
    ([((0 : ℚ), (0 : ℚ), (0 : ℚ)), ((1 : ℚ), (0 : ℚ), (1 : ℚ))] ≠
        ([] : List Vec3)) ∧
      ((1 / 1000000 : ℚ) ≤ spanY [(0, 0, 0), (1, 0, 1)] ∧
        0 < spanY [(0, 0, 0), (1, 0, 1)] ∧
        (∃ uvs, compute_uvs fmZero [(0, 0, 0), (1, 0, 1)] = some uvs ∧
          uvs.length = 2) ∧
        (maxY [(0, 0, 0), (1, 0, 1)] = minY [(0, 0, 0), (1, 0, 1)] →
          spanY [(0, 0, 0), (1, 0, 1)] = 1 / 1000000)) :=
  ⟨by decide, C9_compute_uvs_total fmZero [(0, 0, 0), (1, 0, 1)] (by decide)⟩

/-! ## C1: PNG round-trip and header rejection -/

/-- Inversion of a successful big-endian 32-bit pack. -/
theorem pack_u32_be_eq_some {n : Nat} {bs : List Nat}
    (h : pack_u32_be n = some bs) : n < 4294967296 ∧ bs = u32be n := by
  unfold pack_u32_be at h
  split at h
  · exact ⟨by assumption, (Option.some_inj.mp h).symm⟩
  · cases h

/-- A PNG chunk build succeeds exactly on payloads below 2^32 bytes, and its
bytes are length, type, payload, masked CRC. -/
theorem png_chunk_eq_some {crc32f : List Nat → Nat} {ctype data ch : List Nat}
    (h : png_chunk crc32f ctype data = some ch) :
    data.length < 4294967296 ∧
      ch = u32be data.length ++ ctype ++ data ++
        u32be (crc32f (ctype ++ data) &&& 4294967295) := by
  unfold png_chunk at h
  simp only [Option.bind_eq_some, bind, pure] at h
  rcases h with ⟨lenB, hlen, crcB, hcrc, hch⟩
  have h1 := pack_u32_be_eq_some hlen
  have h2 := pack_u32_be_eq_some hcrc
  refine ⟨h1.1, ?_⟩
  rw [← Option.some_inj.mp hch, h1.2, h2.2]

/-- Reading the header of a well-formed PNG stream: signature, the 13-byte
IHDR length, the IHDR type, the width and height digits, and at least 9
further bytes give back exactly the width and the height. -/
theorem read_png_size_shape (w h : Nat) (_hw : w < 4294967296)
    (_hh : h < 4294967296) (rest : List Nat) (hrest : 9 ≤ rest.length) :
    read_png_size (137 :: 80 :: 78 :: 71 :: 13 :: 10 :: 26 :: 10 ::
      0 :: 0 :: 0 :: 13 :: 73 :: 72 :: 68 :: 82 ::
      (w / 16777216) :: (w / 65536 % 256) :: (w / 256 % 256) :: (w % 256) ::
      (h / 16777216) :: (h / 65536 % 256) :: (h / 256 % 256) :: (h % 256) ::
      rest) = .ok (w, h) := by
  have hc1 : ¬ ((137 :: 80 :: 78 :: 71 :: 13 :: 10 :: 26 :: 10 ::
      0 :: 0 :: 0 :: 13 :: 73 :: 72 :: 68 :: 82 ::
      (w / 16777216) :: (w / 65536 % 256) :: (w / 256 % 256) :: (w % 256) ::
      (h / 16777216) :: (h / 65536 % 256) :: (h / 256 % 256) :: (h % 256) ::
      rest).length < 33) := by
    simp only [List.length_cons]
    omega
  unfold read_png_size
  rw [if_neg hc1]
  split
  · next hne => exact absurd rfl hne
  split
  · next hne => exact absurd rfl hne
  show Except.ok (be32 [w / 16777216, w / 65536 % 256, w / 256 % 256, w % 256],
    be32 [h / 16777216, h / 65536 % 256, h / 256 % 256, h % 256]) = _
  simp only [be32]
  have hwv : w / 16777216 * 16777216 + w / 65536 % 256 * 65536 +
      w / 256 % 256 * 256 + w % 256 = w := by omega
  have hhv : h / 16777216 * 16777216 + h / 65536 % 256 * 65536 +
      h / 256 % 256 * 256 + h % 256 = h := by omega
  rw [hwv, hhv]

/-- C1: the byte stream produced by write_png is re-read by read_png_size as
exactly the encoded width and height, and read_png_size rejects every stream
shorter than 33 bytes, every stream whose first 8 bytes are not the PNG
signature, and every stream without the IHDR type at offset 12. -/
theorem C1_png_roundtrip :
    (∀ (crc32f : List Nat → Nat) (compress : List Nat → List Nat)
        (width height : Nat)
        (pixel_fn : Nat → Nat → Fin 256 × Fin 256 × Fin 256)
        (out : List Nat), 1 ≤ width → 1 ≤ height →
        write_png crc32f compress width height pixel_fn = some out →
        read_png_size out = .ok (width, height)) ∧
    (∀ data : List Nat,
        data.length < 33 ∨ data.take 8 ≠ pngSignature ∨
          (data.drop 12).take 4 ≠ ihdrType →
        ∃ e, read_png_size data = .error e) := by
  constructor
  · intro crc32f compress width height pixel_fn out _ _ hwrite
    unfold write_png at hwrite
    simp only [Option.bind_eq_some, bind, pure] at hwrite
    rcases hwrite with ⟨wB, hwB, hB, hhB, ihdr, hihdr, idat, hidat, iend,
      hiend, hout⟩
    obtain ⟨hw, rfl⟩ := pack_u32_be_eq_some hwB
    obtain ⟨hh, rfl⟩ := pack_u32_be_eq_some hhB
    obtain ⟨-, rfl⟩ := png_chunk_eq_some hihdr
    obtain ⟨-, rfl⟩ := png_chunk_eq_some hidat
    obtain ⟨-, rfl⟩ := png_chunk_eq_some hiend
    rw [← Option.some_inj.mp hout]
    have hlen13 : (u32be width ++ u32be height ++
        ([8, 2, 0, 0, 0] : List Nat)).length = 13 := rfl
    rw [hlen13]
    have hshape : pngSignature ++
        (u32be 13 ++ ihdrType ++ (u32be width ++ u32be height ++ [8, 2, 0, 0, 0]) ++
          u32be (crc32f (ihdrType ++ (u32be width ++ u32be height ++ [8, 2, 0, 0, 0])) &&&
            4294967295)) ++
        (u32be (compress (png_raw width height pixel_fn)).length ++ idatType ++
          compress (png_raw width height pixel_fn) ++
          u32be (crc32f (idatType ++ compress (png_raw width height pixel_fn)) &&&
            4294967295)) ++
        (u32be ([] : List Nat).length ++ iendType ++ [] ++
          u32be (crc32f (iendType ++ []) &&& 4294967295)) =
        137 :: 80 :: 78 :: 71 :: 13 :: 10 :: 26 :: 10 ::
        0 :: 0 :: 0 :: 13 :: 73 :: 72 :: 68 :: 82 ::
        (width / 16777216) :: (width / 65536 % 256) :: (width / 256 % 256) ::
        (width % 256) ::
        (height / 16777216) :: (height / 65536 % 256) :: (height / 256 % 256) ::
        (height % 256) ::
        (8 :: 2 :: 0 :: 0 :: 0 ::
          (u32be (crc32f (ihdrType ++ (u32be width ++ u32be height ++ [8, 2, 0, 0, 0])) &&&
              4294967295) ++
           (u32be (compress (png_raw width height pixel_fn)).length ++ idatType ++
            compress (png_raw width height pixel_fn) ++
            u32be (crc32f (idatType ++ compress (png_raw width height pixel_fn)) &&&
              4294967295)) ++
           (u32be ([] : List Nat).length ++ iendType ++ [] ++
            u32be (crc32f (iendType ++ []) &&& 4294967295)))) := by
      simp [pngSignature, ihdrType, idatType, iendType, u32be]
    rw [hshape]
    apply read_png_size_shape width height hw hh
    simp only [List.length_cons, List.length_append, u32be, List.length_nil]
    omega
  · intro data hbad
    unfold read_png_size
    by_cases h1 : data.length < 33
    · exact ⟨"png too short", by rw [if_pos h1]⟩
    · rw [if_neg h1]
      by_cases h2 : data.take 8 ≠ pngSignature
      · exact ⟨"invalid png signature", by rw [if_pos h2]⟩
      · rw [if_neg h2]
        by_cases h3 : (data.drop 12).take 4 ≠ ihdrType
        · exact ⟨"missing IHDR chunk", by rw [if_pos h3]⟩
        · rcases hbad with hbad | hbad | hbad
          · exact absurd hbad h1
          · exact absurd hbad h2
          · exact absurd hbad h3

/-- C1 witness: a concrete 2 by 3 image with opaque byte functions fixed to
constants round-trips, and the empty stream is rejected. -/
theorem C1_witness :
    ((1 : Nat) ≤ 2 ∧ (1 : Nat) ≤ 3 ∧
      write_png (fun _ => 0) (fun _ => []) 2 3 (fun _ _ => (0, 0, 0)) =
        some (write_png_witness_bytes) ∧
      read_png_size write_png_witness_bytes = .ok (2, 3)) ∧
    (([] : List Nat).length < 33 ∧ ∃ e, read_png_size [] = .error e) := by
  refine ⟨⟨by decide, by decide, by rfl, ?_⟩, by decide, ?_⟩
  · exact C1_png_roundtrip.1 (fun _ => 0) (fun _ => []) 2 3 (fun _ _ => (0, 0, 0))
      write_png_witness_bytes (by decide) (by decide) (by rfl)
  · exact C1_png_roundtrip.2 [] (Or.inl (by decide))

/-! ## write_gltf support lemmas -/

/-- The normal accumulation loop succeeds on in-range indices forming whole
triangles and preserves the vertex count. -/
theorem normalsGo_eq_some (vertices : List Vec3) (is : List Nat)
    (ns : List Vec3) (hidx : ∀ i ∈ is, i < vertices.length)
    (h3 : is.length % 3 = 0) (hlen : ns.length = vertices.length) :
    ∃ ns', normalsGo vertices is ns = some ns' ∧
      ns'.length = vertices.length := by
  induction is, ns using normalsGo.induct vertices with
  | case1 ns => exact ⟨ns, rfl, hlen⟩
  | case2 i0 i1 i2 rest ns ih =>
      have h0 : i0 < vertices.length := hidx i0 (by simp)
      have h1 : i1 < vertices.length := hidx i1 (by simp)
      have h2 : i2 < vertices.length := hidx i2 (by simp)
      obtain ⟨p0, hp0⟩ : ∃ p, vertices.get? i0 = some p :=
        ⟨_, List.get?_eq_get h0⟩
      obtain ⟨p1, hp1⟩ : ∃ p, vertices.get? i1 = some p :=
        ⟨_, List.get?_eq_get h1⟩
      obtain ⟨p2, hp2⟩ : ∃ p, vertices.get? i2 = some p :=
        ⟨_, List.get?_eq_get h2⟩
      obtain ⟨q0, hq0⟩ : ∃ q, ns.get? i0 = some q :=
        ⟨_, List.get?_eq_get (by rw [hlen]; exact h0)⟩
      obtain ⟨q1, hq1⟩ : ∃ q,
          (ns.set i0 (add3 q0 (cross3 (sub3 p1 p0) (sub3 p2 p0)))).get? i1 =
            some q :=
        ⟨_, List.get?_eq_get (by rw [List.length_set, hlen]; exact h1)⟩
      obtain ⟨q2, hq2⟩ : ∃ q,
          ((ns.set i0 (add3 q0 (cross3 (sub3 p1 p0) (sub3 p2 p0)))).set i1
            (add3 q1 (cross3 (sub3 p1 p0) (sub3 p2 p0)))).get? i2 = some q :=
        ⟨_, List.get?_eq_get
          (by rw [List.length_set, List.length_set, hlen]; exact h2)⟩
      simp only [normalsGo, bind, hp0, hp1, hp2, hq0, hq1, hq2,
        Option.some_bind]
      refine ih p0 p1 p2 q0 q1 q2 (fun i hi => hidx i (List.mem_cons_of_mem _
        (List.mem_cons_of_mem _ (List.mem_cons_of_mem _ hi)))) ?_ ?_
      · simp only [List.length_cons] at h3
        omega
      · simp [hlen]
  | case3 is ns hne1 hne2 =>
      exfalso
      rcases is with _ | ⟨a, _ | ⟨b, _ | ⟨c, rest⟩⟩⟩
      · exact hne1 rfl
      · simp at h3
      · simp at h3
      · exact hne2 a b c rest rfl

/-- compute_normals succeeds on a mesh satisfying the mesh invariant and
yields one normal per vertex. -/
theorem compute_normals_eq_some (fm : FloatModel) (vertices : List Vec3)
    (indices : List Nat) (hidx : ∀ i ∈ indices, i < vertices.length)
    (h3 : indices.length % 3 = 0) :
    ∃ ns, compute_normals fm vertices indices = some ns ∧
      ns.length = vertices.length := by
  obtain ⟨ns', h, hl⟩ := normalsGo_eq_some vertices indices
    (List.replicate vertices.length ((0 : ℚ), (0 : ℚ), (0 : ℚ))) hidx h3
    (List.length_replicate _ _)
  exact ⟨ns'.map (normalize3 fm), by rw [compute_normals, h]; rfl,
    by simp [hl]⟩

/-- compute_uvs succeeds on a non-empty vertex list with one pair per
vertex. -/
theorem compute_uvs_eq_some (fm : FloatModel) (v : Vec3) (vs : List Vec3) :
    ∃ uvs, compute_uvs fm (v :: vs) = some uvs ∧
      uvs.length = (v :: vs).length :=
  ⟨_, rfl, by simp [compute_uvs]⟩

/-- Packing a list of 16-bit indices succeeds and yields two bytes per
index. -/
theorem mapM_pack_u16_eq_some (indices : List Nat)
    (h16 : ∀ i ∈ indices, i < 65536) :
    ∃ bss, indices.mapM pack_u16_le = some bss ∧
      bss.flatten.length = 2 * indices.length := by
  induction indices with
  | nil => exact ⟨[], rfl, rfl⟩
  | cons i is ih =>
      obtain ⟨bss, hm, hl⟩ := ih fun j hj => h16 j (List.mem_cons_of_mem _ hj)
      have hp : pack_u16_le i = some [i % 256, i / 256] := by
        rw [pack_u16_le, if_pos (h16 i (List.mem_cons_self i is))]
      refine ⟨[i % 256, i / 256] :: bss, ?_, ?_⟩
      · rw [List.mapM_cons, hp, hm]
        rfl
      · simp only [List.flatten_cons, List.length_append, List.length_cons,
          List.length_nil, hl]
        omega

/-- Padding is the identity on a buffer already aligned. -/
theorem padTo_of_mod (buf : List Nat) (align : Nat)
    (h : buf.length % align = 0) : padTo buf align = buf := by
  rw [padTo, h, Nat.sub_zero, Nat.mod_self, List.replicate_zero,
    List.append_nil]

/-- Length of a padded buffer. -/
theorem length_padTo (buf : List Nat) (align : Nat) :
    (padTo buf align).length =
      buf.length + (align - buf.length % align) % align := by
  simp [padTo]

/-- Byte length of the packed position or normal stream. -/
theorem length_blob3 (packF32 : ℚ → Byte4) (l : List Vec3) :
    (l.flatMap fun v =>
      b4 (packF32 v.1) ++ b4 (packF32 v.2.1) ++ b4 (packF32 v.2.2)).length =
      l.length * 12 :=
  length_flatMap_const l _ 12 fun _ _ => rfl

/-- Byte length of the packed UV stream. -/
theorem length_blob2 (packF32 : ℚ → Byte4) (l : List Vec2) :
    (l.flatMap fun uv => b4 (packF32 uv.1) ++ b4 (packF32 uv.2)).length =
      l.length * 8 :=
  length_flatMap_const l _ 8 fun _ _ => rfl

/-- write_gltf succeeds on every mesh with non-empty vertices and indices,
in-range 16-bit indices and whole triangles, and its output document carries
the vertex count in the POSITION accessor, the four buffer views at aligned
offsets with unpadded byte lengths, and a buffer declaration whose length is
the exact sum of the stream lengths. -/
theorem write_gltf_eq_some (fm : FloatModel) (packF32 : ℚ → Byte4)
    (stem mesh_name : String) (vertices : List Vec3) (indices : List Nat)
    (hv : vertices ≠ []) (hi : indices ≠ [])
    (hidx : ∀ i ∈ indices, i < vertices.length)
    (h16 : ∀ i ∈ indices, i < 65536) (h3 : indices.length % 3 = 0) :
    ∃ doc buf,
      write_gltf fm packF32 stem mesh_name vertices indices =
          some (doc, buf) ∧
        positionCount doc = some vertices.length ∧
        doc.buffers = [⟨some (stem ++ ".bin"),
          32 * vertices.length + 2 * indices.length⟩] ∧
        doc.bufferViews =
          [⟨0, 0, 12 * vertices.length, some 34962⟩,
           ⟨0, 12 * vertices.length, 12 * vertices.length, some 34962⟩,
           ⟨0, 24 * vertices.length, 8 * vertices.length, some 34962⟩,
           ⟨0, 32 * vertices.length, 2 * indices.length, some 34963⟩] ∧
        buf.length = 32 * vertices.length + 2 * indices.length := by
  obtain ⟨normals, hn, hnl⟩ :=
    compute_normals_eq_some fm vertices indices hidx h3
  obtain ⟨v0, vs, rfl⟩ : ∃ v0 vs, vertices = v0 :: vs := by
    cases vertices with
    | nil => exact absurd rfl hv
    | cons a l => exact ⟨a, l, rfl⟩
  obtain ⟨j0, js, rfl⟩ : ∃ j0 js, indices = j0 :: js := by
    cases indices with
    | nil => exact absurd rfl hi
    | cons a l => exact ⟨a, l, rfl⟩
  obtain ⟨uvs, hu, hul⟩ := compute_uvs_eq_some fm v0 vs
  obtain ⟨bss, hm, hbl⟩ := mapM_pack_u16_eq_some _ h16
  unfold write_gltf
  rw [hn, hu, hm]
  simp only [Option.some_bind, minPos, maxPos, listMinNat, listMaxNat]
  refine ⟨_, _, rfl, ?_, ?_, ?_, ?_⟩
  · rfl
  all_goals
    simp only [length_padTo, List.length_append, List.length_nil,
      length_blob3, length_blob2, hnl, hul, hbl, List.length_cons,
      GltfBufferDecl.mk.injEq, GltfBufferView.mk.injEq, List.cons.injEq,
      Option.some.injEq, and_true, true_and]
    omega

/-! ## C2: glTF round-trip -/

/-- C2: for every mesh with non-empty vertex and index lists, 16-bit
indices, and the data-model mesh invariant (in-range indices, whole
triangles), write_gltf succeeds, and validate_mesh on the produced document,
with the companion .bin file present on disk, returns exactly the vertex
list length with an empty error list, while the companion buffer bytes are
non-empty. -/
theorem C2_gltf_roundtrip (fm : FloatModel) (packF32 : ℚ → Byte4)
    (stem mesh_name path : String) (vertices : List Vec3)
    (indices : List Nat) (hv : vertices ≠ []) (hi : indices ≠ [])
    (h16 : ∀ i ∈ indices, i < 65536)
    (hinv : ∀ i ∈ indices, i < vertices.length)
    (h3 : indices.length % 3 = 0) :
    ∃ doc buf,
      write_gltf fm packF32 stem mesh_name vertices indices =
          some (doc, buf) ∧
        validate_mesh path (some doc) (fun u => u == stem ++ ".bin") =
          (vertices.length, []) ∧
        0 < buf.length := by
  obtain ⟨doc, buf, hw, hpc, hbuffers, hviews, hlen⟩ :=
    write_gltf_eq_some fm packF32 stem mesh_name vertices indices hv hi
      hinv h16 h3
  refine ⟨doc, buf, hw, ?_, ?_⟩
  · simp only [validate_mesh]
    rw [hpc, hbuffers]
    simp [List.filterMap]
  · have : vertices ≠ [] → 0 < vertices.length := fun h => List.length_pos.mpr h
    have h1 := this hv
    omega

/-- C2 witness: a single concrete triangle round-trips with vertex count 3,
no errors and a non-empty buffer. -/
theorem C2_witness :
    (([((0 : ℚ), (0 : ℚ), (0 : ℚ)), (1, 0, 0), (0, 1, 0)] : List Vec3) ≠ [] ∧
      ([0, 1, 2] : List Nat) ≠ [] ∧
      (∀ i ∈ ([0, 1, 2] : List Nat), i < 65536) ∧
      (∀ i ∈ ([0, 1, 2] : List Nat), i < 3) ∧
      ([0, 1, 2] : List Nat).length % 3 = 0) ∧
    ∃ doc buf,
      write_gltf fmZero packZero "tri" "TriMesh"
          [(0, 0, 0), (1, 0, 0), (0, 1, 0)] [0, 1, 2] = some (doc, buf) ∧
        validate_mesh "tri.gltf" (some doc) (fun u => u == "tri" ++ ".bin") =
          (([((0 : ℚ), (0 : ℚ), (0 : ℚ)), (1, 0, 0), (0, 1, 0)] :
            List Vec3).length, []) ∧
        0 < buf.length :=
  ⟨⟨by decide, by decide, by decide, by decide, by decide⟩,
    C2_gltf_roundtrip fmZero packZero "tri" "TriMesh" "tri.gltf"
      [(0, 0, 0), (1, 0, 0), (0, 1, 0)] [0, 1, 2] (by decide) (by decide)
      (by decide) (by decide) (by decide)⟩

/-! ## C6: binary buffer layout -/

/-- C6: the buffer written by write_gltf holds the four streams in four
consecutive buffer views; the position, normal and UV views start at byte
offsets divisible by 4 and the index view at an offset divisible by 2; each
view's byte length is the exact unpadded stream length, and the buffer
length declared in the document is the exact sum of the view byte lengths
(so no padding byte is counted in it), which also equals the byte count of
the companion file. -/
theorem C6_buffer_layout (fm : FloatModel) (packF32 : ℚ → Byte4)
    (stem mesh_name : String) (vertices : List Vec3) (indices : List Nat)
    (hv : vertices ≠ []) (hi : indices ≠ [])
    (h16 : ∀ i ∈ indices, i < 65536)
    (hinv : ∀ i ∈ indices, i < vertices.length)
    (h3 : indices.length % 3 = 0) :
    ∃ doc buf,
      write_gltf fm packF32 stem mesh_name vertices indices =
          some (doc, buf) ∧
        doc.bufferViews =
          [⟨0, 0, 12 * vertices.length, some 34962⟩,
           ⟨0, 12 * vertices.length, 12 * vertices.length, some 34962⟩,
           ⟨0, 24 * vertices.length, 8 * vertices.length, some 34962⟩,
           ⟨0, 32 * vertices.length, 2 * indices.length, some 34963⟩] ∧
        (∀ v ∈ doc.bufferViews.take 3, v.byteOffset % 4 = 0) ∧
        (∀ v ∈ doc.bufferViews.drop 3, v.byteOffset % 2 = 0) ∧
        doc.buffers = [⟨some (stem ++ ".bin"),
          32 * vertices.length + 2 * indices.length⟩] ∧
        (doc.buffers.map fun b => b.byteLength).sum =
          (doc.bufferViews.map fun v => v.byteLength).sum ∧
        buf.length = 32 * vertices.length + 2 * indices.length := by
  obtain ⟨doc, buf, hw, hpc, hbuffers, hviews, hlen⟩ :=
    write_gltf_eq_some fm packF32 stem mesh_name vertices indices hv hi
      hinv h16 h3
  refine ⟨doc, buf, hw, hviews, ?_, ?_, hbuffers, ?_, hlen⟩
  · rw [hviews]
    intro v hv'
    simp only [List.take, List.mem_cons, List.not_mem_nil, or_false] at hv'
    rcases hv' with rfl | rfl | rfl <;> simp <;> omega
  · rw [hviews]
    intro v hv'
    simp only [List.drop, List.mem_cons, List.not_mem_nil, or_false] at hv'
    rcases hv' with rfl
    simp
    omega
  · rw [hviews, hbuffers]
    simp
    ring

/-- C6 witness: the layout evaluated on a concrete triangle (3 vertices, 3
indices): views at offsets 0, 36, 72, 96 with lengths 36, 36, 24, 6 and a
102-byte buffer. -/
theorem C6_witness :
    (([((0 : ℚ), (0 : ℚ), (0 : ℚ)), (1, 0, 0), (0, 1, 0)] : List Vec3) ≠ [] ∧
      ([0, 1, 2] : List Nat).length % 3 = 0) ∧
    ∃ doc buf,
      write_gltf fmZero packZero "tri" "TriMesh"
          [(0, 0, 0), (1, 0, 0), (0, 1, 0)] [0, 1, 2] = some (doc, buf) ∧
        doc.bufferViews =
          [⟨0, 0, 36, some 34962⟩, ⟨0, 36, 36, some 34962⟩,
           ⟨0, 72, 24, some 34962⟩, ⟨0, 96, 6, some 34963⟩] ∧
        (∀ v ∈ doc.bufferViews.take 3, v.byteOffset % 4 = 0) ∧
        (∀ v ∈ doc.bufferViews.drop 3, v.byteOffset % 2 = 0) ∧
        doc.buffers = [⟨some ("tri" ++ ".bin"), 102⟩] ∧
        (doc.buffers.map fun b => b.byteLength).sum =
          (doc.bufferViews.map fun v => v.byteLength).sum ∧
        buf.length = 102 := by
  refine ⟨⟨by decide, by decide⟩, ?_⟩
  have h := C6_buffer_layout fmZero packZero "tri" "TriMesh"
    [(0, 0, 0), (1, 0, 0), (0, 1, 0)] [0, 1, 2] (by decide) (by decide)
    (by decide) (by decide) (by decide)
  simpa using h

/-! ## Validator counting and membership helpers -/

/-- countP distributes over flatMap as a sum of per-block counts. -/
theorem countP_flatMap {α β : Type _} (l : List α) (f : α → List β)
    (p : β → Bool) :
    (l.flatMap f).countP p = (l.map fun a => (f a).countP p).sum := by
  induction l with
  | nil => simp
  | cons a t ih => simp [List.flatMap_cons, List.countP_append, ih]

/-- Texture checks never produce a vertex-budget error. -/
theorem validateTexture_not_budget (td : ThemeDir) (mts : Nat)
    (name : String) :
    ∀ e ∈ validateTexture td mts name, ∀ q, isVertexBudgetFor q e = false := by
  intro e he q
  unfold validateTexture at he
  rcases htf : td.textureFile name with _ | bytes <;> simp only [htf] at he
  · simp at he; subst he; rfl
  · rcases hr : read_png_size bytes with c | ⟨w, h⟩ <;> simp only [hr] at he
    · simp at he; subst he; rfl
    · rcases List.mem_append.mp he with h' | h'
      · by_cases hc : w < mts ∨ h < mts
        · rw [if_pos hc] at h'; simp at h'; subst h'; rfl
        · rw [if_neg hc] at h'; simp at h'
      · by_cases hc : w ≠ h
        · rw [if_pos hc] at h'; simp at h'; subst h'; rfl
        · rw [if_neg hc] at h'; simp at h'

/-- The errors of validate_mesh are never vertex-budget errors. -/
theorem validate_mesh_errs_not_budget (path : String)
    (content : Option Gltf) (fe : String → Bool) :
    ∀ e ∈ (validate_mesh path content fe).2, ∀ q,
      isVertexBudgetFor q e = false := by
  intro e he q
  rcases content with _ | g
  · simp [validate_mesh] at he; subst he; rfl
  · simp only [validate_mesh] at he
    rcases hpc : positionCount g with _ | n <;> simp only [hpc] at he
    · simp at he; subst he; rfl
    · rcases List.mem_filterMap.mp he with ⟨b, _, hbe⟩
      rcases hu : b.uri with _ | uri <;> simp only [hu] at hbe
      · cases hbe
      · by_cases hex : fe uri
        · rw [if_pos hex] at hbe; cases hbe
        · rw [if_neg hex] at hbe
          rcases hbe with ⟨rfl⟩
          rfl

/-- A mesh file whose name differs from the inspected path contributes no
vertex-budget error counted for that path. -/
theorem countP_budget_entity_ne (td : ThemeDir)
    (profile : ThemeValidationProfile) (mts : Nat) (entity path : String)
    (h : (meshFileName profile entity == path) = false) :
    (validateEntity td profile mts entity).countP
      (isVertexBudgetFor path) = 0 := by
  rw [List.countP_eq_zero]
  intro e he
  simp only [validateEntity] at he
  rcases List.mem_append.mp he with h' | h'
  · rcases hmf : td.meshFile (meshFileName profile entity) with _ | content <;>
      simp only [hmf] at h'
    · simp at h'; subst h'; simp [isVertexBudgetFor]
    · rcases List.mem_append.mp h' with h'' | h''
      · have := validate_mesh_errs_not_budget (meshFileName profile entity)
          content td.binExists e h'' path
        simp [this]
      · by_cases hlt : (validate_mesh (meshFileName profile entity) content
            td.binExists).1 < profile.min_vertices entity
        · rw [if_pos hlt] at h''
          simp at h''
          subst h''
          simp [isVertexBudgetFor, h]
        · rw [if_neg hlt] at h''
          simp at h''
  · rcases List.mem_flatMap.mp h' with ⟨ch, _, hmem⟩
    have := validateTexture_not_budget td mts _ e hmem path
    simp [this]

/-- The entity holding a parsed document with a known POSITION count
contributes exactly one budget error when the count is below the minimum and
none otherwise. -/
theorem countP_budget_entity_doc (td : ThemeDir)
    (profile : ThemeValidationProfile) (mts : Nat) (entity : String)
    (doc : Gltf) (n : Nat)
    (hmf : td.meshFile (meshFileName profile entity) = some (some doc))
    (hpc : positionCount doc = some n) :
    (validateEntity td profile mts entity).countP
      (isVertexBudgetFor (meshFileName profile entity)) =
      if n < profile.min_vertices entity then 1 else 0 := by
  have hvm : validate_mesh (meshFileName profile entity) (some doc)
      td.binExists =
      (n, doc.buffers.filterMap fun b =>
        match b.uri with
        | none => none
        | some uri =>
            if td.binExists uri then none
            else some (Err.missingBuffer (meshFileName profile entity) uri)) := by
    simp only [validate_mesh, hpc]
  have htex : (TEXTURE_CHANNELS.flatMap fun channel =>
      validateTexture td mts (entity ++ "_" ++ channel ++ ".png")).countP
      (isVertexBudgetFor (meshFileName profile entity)) = 0 := by
    rw [List.countP_eq_zero]
    intro e he
    rcases List.mem_flatMap.mp he with ⟨ch, _, hmem⟩
    have := validateTexture_not_budget td mts _ e hmem
      (meshFileName profile entity)
    simp [this]
  simp only [validateEntity, hmf]
  simp only [hvm, List.countP_append, htex]
  have hzero : (doc.buffers.filterMap fun b =>
      match b.uri with
      | none => none
      | some uri =>
          if td.binExists uri then none
          else some (Err.missingBuffer (meshFileName profile entity) uri)).countP
      (isVertexBudgetFor (meshFileName profile entity)) = 0 := by
    have h' := validate_mesh_errs_not_budget (meshFileName profile entity)
      (some doc) td.binExists
    rw [hvm] at h'
    rw [List.countP_eq_zero]
    intro e he
    simp [h' e he]
  rw [hzero]
  by_cases hlt : n < profile.min_vertices entity
  · rw [if_pos hlt, if_pos hlt]
    simp [List.countP_cons, isVertexBudgetFor]
  · rw [if_neg hlt, if_neg hlt]
    simp

/-- The vertex-budget count of a whole validation pass is the sum of the
per-entity counts; the directory and preset checks contribute none. -/
theorem countP_budget_pack (td : ThemeDir)
    (profile : ThemeValidationProfile) (mts : Nat) (path : String) :
    (validate_theme_pack td profile mts).countP (isVertexBudgetFor path) =
      (ENTITIES.map fun e =>
        (validateEntity td profile mts e).countP
          (isVertexBudgetFor path)).sum := by
  unfold validate_theme_pack
  rw [List.countP_append, List.countP_append, List.countP_append,
    List.countP_append, countP_flatMap]
  have hd : ∀ (c : Bool) (s : String),
      (if c then ([] : List Err) else [Err.missingDirectory s]).countP
        (isVertexBudgetFor path) = 0 := by
    intro c s
    split_ifs <;> simp [List.countP_cons, isVertexBudgetFor]
  rw [hd, hd, hd]
  have hp : (profile.preset_files.filterMap fun preset =>
      if td.presetExists preset then none
      else some (Err.missingPreset preset)).countP
      (isVertexBudgetFor path) = 0 := by
    rw [List.countP_eq_zero]
    intro e he
    rcases List.mem_filterMap.mp he with ⟨q, _, hqe⟩
    by_cases hc : td.presetExists q
    · rw [if_pos hc] at hqe; cases hqe
    · rw [if_neg hc] at hqe
      rcases hqe with ⟨rfl⟩
      simp [isVertexBudgetFor]
  rw [hp]
  simp

/-- Every error of one entity pass appears in the whole-pack error list. -/
theorem mem_pack_of_mem_entity (td : ThemeDir)
    (profile : ThemeValidationProfile) (mts : Nat) (entity : String)
    (he : entity ∈ ENTITIES) (x : Err)
    (hx : x ∈ validateEntity td profile mts entity) :
    x ∈ validate_theme_pack td profile mts :=
  List.mem_append.mpr (Or.inr (List.mem_flatMap.mpr ⟨entity, he, hx⟩))

/-! ## C10: parse failure implies two accumulated errors -/

/-- C10: when an entity's mesh file exists but its content is unparsable or
lacks the POSITION accessor chain, validate_mesh reports vertex count 0 with
one error, and since every per-entity minimum of both profiles is positive,
the whole-pack error list contains both that error and a vertex-budget
violation for the same file, two distinct entries. -/
theorem C10_parse_failure_two_errors (td : ThemeDir)
    (profile : ThemeValidationProfile)
    (hp : profile = profileV1 ∨ profile = profileV2) (mts : Nat)
    (entity : String) (he : entity ∈ ENTITIES) (content : Option Gltf)
    (hmf : td.meshFile (meshFileName profile entity) = some content)
    (hbad : content = none ∨
      ∃ g, content = some g ∧ positionCount g = none) :
    (validate_mesh (meshFileName profile entity) content td.binExists).1 =
        0 ∧
      ∃ e1,
        (validate_mesh (meshFileName profile entity) content
            td.binExists).2 = [e1] ∧
          e1 ∈ validate_theme_pack td profile mts ∧
          Err.vertexBudget (meshFileName profile entity) 0
              (profile.min_vertices entity) ∈
            validate_theme_pack td profile mts ∧
          e1 ≠ Err.vertexBudget (meshFileName profile entity) 0
            (profile.min_vertices entity) := by
  have hmin : 0 < profile.min_vertices entity := by
    have h1 : ∀ e ∈ ENTITIES, 0 < profileV1.min_vertices e := by decide
    have h2 : ∀ e ∈ ENTITIES, 0 < profileV2.min_vertices e := by decide
    rcases hp with rfl | rfl
    · exact h1 entity he
    · exact h2 entity he
  have hvm : ∃ e1,
      validate_mesh (meshFileName profile entity) content td.binExists =
        (0, [e1]) ∧
      (e1 = Err.parseFailed (meshFileName profile entity) ∨
        e1 = Err.missingPosition (meshFileName profile entity)) := by
    rcases hbad with rfl | ⟨g, rfl, hpcn⟩
    · exact ⟨Err.parseFailed (meshFileName profile entity), rfl, Or.inl rfl⟩
    · exact ⟨Err.missingPosition (meshFileName profile entity),
        by simp [validate_mesh, hpcn], Or.inr rfl⟩
  obtain ⟨e1, hvmeq, he1shape⟩ := hvm
  have hent1 : e1 ∈ validateEntity td profile mts entity := by
    simp only [validateEntity, hmf]
    refine List.mem_append.mpr (Or.inl (List.mem_append.mpr (Or.inl ?_)))
    rw [hvmeq]
    simp
  have hent2 : Err.vertexBudget (meshFileName profile entity) 0
      (profile.min_vertices entity) ∈ validateEntity td profile mts entity := by
    simp only [validateEntity, hmf]
    refine List.mem_append.mpr (Or.inl (List.mem_append.mpr (Or.inr ?_)))
    rw [hvmeq]
    simp only
    rw [if_pos (by simpa using hmin)]
    simp
  refine ⟨by rw [hvmeq], e1, by rw [hvmeq], ?_, ?_, ?_⟩
  · exact mem_pack_of_mem_entity td profile mts entity he e1 hent1
  · exact mem_pack_of_mem_entity td profile mts entity he _ hent2
  · rcases he1shape with rfl | rfl
    · intro hcontra; cases hcontra
    · intro hcontra; cases hcontra

/-- C10 witness: a theme directory whose agent mesh file holds unparsable
content yields both the parse error and the agent vertex-budget error under
the v1 profile. -/
theorem C10_witness :
    (tdBadMesh.meshFile (meshFileName profileV1 "agent") = some none ∧
      "agent" ∈ ENTITIES) ∧
    ((validate_mesh (meshFileName profileV1 "agent") none
        tdBadMesh.binExists).1 = 0 ∧
      ∃ e1,
        (validate_mesh (meshFileName profileV1 "agent") none
            tdBadMesh.binExists).2 = [e1] ∧
          e1 ∈ validate_theme_pack tdBadMesh profileV1 256 ∧
          Err.vertexBudget (meshFileName profileV1 "agent") 0
              (profileV1.min_vertices "agent") ∈
            validate_theme_pack tdBadMesh profileV1 256 ∧
          e1 ≠ Err.vertexBudget (meshFileName profileV1 "agent") 0
            (profileV1.min_vertices "agent")) :=
  ⟨⟨by decide, by decide⟩,
    C10_parse_failure_two_errors tdBadMesh profileV1 (Or.inl rfl) 256
      "agent" (by decide) none (by decide) (Or.inl rfl)⟩

/-! ## C8: single-pass accumulation and exit codes -/

/-- C8: the validator never fails fast: every directory, preset, mesh,
vertex-budget and texture failure is a member of the one accumulated error
list of a single validate_theme_pack pass, and the CLI exits 0 exactly when
that list is empty, otherwise printing exactly the accumulated errors (one
per line) and exiting 1. -/
theorem C8_accumulation_and_exit :
    (∀ (td : ThemeDir) (profile : ThemeValidationProfile) (mts : Nat),
      ((mainResult td profile mts).1 = 0 ↔
        validate_theme_pack td profile
          (if mts > 0 then mts else profile.min_texture_size) = []) ∧
      ((mainResult td profile mts).1 ≠ 0 →
        (mainResult td profile mts).1 = 1 ∧
          (mainResult td profile mts).2 =
            validate_theme_pack td profile
              (if mts > 0 then mts else profile.min_texture_size))) ∧
    (∀ (td : ThemeDir) (profile : ThemeValidationProfile) (m : Nat),
      (td.meshesDirExists = false →
        Err.missingDirectory "meshes" ∈ validate_theme_pack td profile m) ∧
      (td.texturesDirExists = false →
        Err.missingDirectory "textures" ∈ validate_theme_pack td profile m) ∧
      (td.presetsDirExists = false →
        Err.missingDirectory "presets" ∈ validate_theme_pack td profile m) ∧
      (∀ p ∈ profile.preset_files, td.presetExists p = false →
        Err.missingPreset p ∈ validate_theme_pack td profile m) ∧
      (∀ e ∈ ENTITIES,
        (td.meshFile (meshFileName profile e) = none →
          Err.missingMeshFile (meshFileName profile e) ∈
            validate_theme_pack td profile m) ∧
        (∀ content, td.meshFile (meshFileName profile e) = some content →
          (∀ x ∈ (validate_mesh (meshFileName profile e) content
              td.binExists).2, x ∈ validate_theme_pack td profile m) ∧
          ((validate_mesh (meshFileName profile e) content
              td.binExists).1 < profile.min_vertices e →
            Err.vertexBudget (meshFileName profile e)
                (validate_mesh (meshFileName profile e) content
                  td.binExists).1 (profile.min_vertices e) ∈
              validate_theme_pack td profile m)) ∧
        (∀ ch ∈ TEXTURE_CHANNELS,
          ∀ x ∈ validateTexture td m (e ++ "_" ++ ch ++ ".png"),
            x ∈ validate_theme_pack td profile m))) := by
  constructor
  · intro td profile mts
    have hm : mainResult td profile mts =
        if (validate_theme_pack td profile
            (if mts > 0 then mts else profile.min_texture_size)).isEmpty then
          ((0 : Nat), ([] : List Err))
        else (1, validate_theme_pack td profile
          (if mts > 0 then mts else profile.min_texture_size)) := rfl
    rw [hm]
    by_cases hempty : (validate_theme_pack td profile
        (if mts > 0 then mts else profile.min_texture_size)).isEmpty
    · rw [if_pos hempty]
      simp only [List.isEmpty_iff] at hempty
      exact ⟨⟨fun _ => hempty, fun _ => rfl⟩, fun h => absurd rfl h⟩
    · rw [if_neg hempty]
      refine ⟨?_, fun _ => ⟨rfl, rfl⟩⟩
      simp only [List.isEmpty_iff] at hempty
      exact ⟨fun h => absurd h one_ne_zero, fun h => absurd h hempty⟩
  · intro td profile m
    refine ⟨?_, ?_, ?_, ?_, ?_⟩
    · intro h
      unfold validate_theme_pack
      rw [h]
      simp
    · intro h
      unfold validate_theme_pack
      rw [h]
      simp
    · intro h
      unfold validate_theme_pack
      rw [h]
      simp
    · intro p hp hpe
      refine List.mem_append.mpr (Or.inl (List.mem_append.mpr (Or.inr
        (List.mem_filterMap.mpr ⟨p, hp, ?_⟩))))
      rw [hpe]
      simp
    · intro e he
      refine ⟨?_, ?_, ?_⟩
      · intro hmf
        refine mem_pack_of_mem_entity td profile m e he _ ?_
        simp only [validateEntity, hmf]
        exact List.mem_append.mpr (Or.inl (List.mem_cons_self _ _))
      · intro content hmf
        constructor
        · intro x hx
          refine mem_pack_of_mem_entity td profile m e he x ?_
          simp only [validateEntity, hmf]
          exact List.mem_append.mpr (Or.inl (List.mem_append.mpr (Or.inl hx)))
        · intro hlt
          refine mem_pack_of_mem_entity td profile m e he _ ?_
          simp only [validateEntity, hmf]
          refine List.mem_append.mpr (Or.inl (List.mem_append.mpr (Or.inr ?_)))
          rw [if_pos hlt]
          simp
      · intro ch hch x hx
        refine mem_pack_of_mem_entity td profile m e he x ?_
        exact List.mem_append.mpr (Or.inr (List.mem_flatMap.mpr ⟨ch, hch, hx⟩))

/-- C8 witness: on an empty theme directory the CLI exits 1 printing the
accumulated list, which contains the missing-directory and missing-preset
errors. -/
theorem C8_witness :
    ((mainResult tdEmpty profileV1 0).1 = 1 ∧
      (mainResult tdEmpty profileV1 0).2 =
        validate_theme_pack tdEmpty profileV1
          (if 0 > 0 then 0 else profileV1.min_texture_size)) ∧
    (tdEmpty.meshesDirExists = false ∧
      Err.missingDirectory "meshes" ∈
        validate_theme_pack tdEmpty profileV1 256) ∧
    ("industrial_default.env" ∈ profileV1.preset_files ∧
      tdEmpty.presetExists "industrial_default.env" = false ∧
      Err.missingPreset "industrial_default.env" ∈
        validate_theme_pack tdEmpty profileV1 256) :=
  ⟨(C8_accumulation_and_exit.1 tdEmpty profileV1 0).2 (by decide),
    ⟨by decide, (C8_accumulation_and_exit.2 tdEmpty profileV1 256).1
      (by decide)⟩,
    ⟨by decide, by decide,
      (C8_accumulation_and_exit.2 tdEmpty profileV1 256).2.2.2.1
        "industrial_default.env" (by decide) (by decide)⟩⟩

/-! ## C7: the agent mesh end-to-end scenario -/

/-- C7: the agent mesh (octahedron of radius 0.56 merged with a translated
6-sided prism) has 20 vertices; when its export is the agent mesh file of a
theme directory, a v1 validation pass (minimum 18) counts zero vertex-budget
violations for agent, while a v2 pass (minimum 48) counts exactly one. -/
theorem C7_agent_scenario (fm : FloatModel) (packF32 : ℚ → Byte4) :
    (agentMesh fm).vertices.length = 20 ∧
    ∀ (doc : Gltf) (buf : List Nat) (stem : String),
      write_gltf fm packF32 stem "AgentIndustrialMesh"
          (agentMesh fm).vertices (agentMesh fm).indices = some (doc, buf) →
      ∀ td : ThemeDir,
        (td.meshFile (meshFileName profileV1 "agent") = some (some doc) →
          (validate_theme_pack td profileV1 256).countP
            (isVertexBudgetFor (meshFileName profileV1 "agent")) = 0) ∧
        (td.meshFile (meshFileName profileV2 "agent") = some (some doc) →
          (validate_theme_pack td profileV2 512).countP
            (isVertexBudgetFor (meshFileName profileV2 "agent")) = 1) := by
  have hlen : (agentMesh fm).vertices.length = 20 := rfl
  refine ⟨hlen, ?_⟩
  intro doc buf stem hw td
  have hind : (agentMesh fm).indices = (agentMesh fmZero).indices := rfl
  obtain ⟨doc', buf', hw', hpc', _, _, _⟩ :=
    write_gltf_eq_some fm packF32 stem "AgentIndustrialMesh"
      (agentMesh fm).vertices (agentMesh fm).indices
      (List.length_pos.mp (by rw [hlen]; norm_num))
      (by rw [hind]; decide)
      (by rw [hind, hlen]; decide)
      (by rw [hind]; decide)
      (by rw [hind]; decide)
  rw [hw] at hw'
  have hpair : doc = doc' ∧ buf = buf' := by
    have h := Option.some_inj.mp hw'
    exact ⟨congrArg Prod.fst h, congrArg Prod.snd h⟩
  obtain ⟨rfl, rfl⟩ := hpair
  have hpc : positionCount doc = some 20 := by rw [hpc', hlen]
  constructor
  · intro hmf
    rw [countP_budget_pack]
    simp only [ENTITIES, List.map_cons, List.map_nil, List.sum_cons,
      List.sum_nil]
    rw [countP_budget_entity_doc td profileV1 256 "agent" doc 20 hmf hpc,
      countP_budget_entity_ne td profileV1 256 "location"
        (meshFileName profileV1 "agent") (by decide),
      countP_budget_entity_ne td profileV1 256 "asset"
        (meshFileName profileV1 "agent") (by decide),
      countP_budget_entity_ne td profileV1 256 "power_plant"
        (meshFileName profileV1 "agent") (by decide),
      countP_budget_entity_ne td profileV1 256 "power_storage"
        (meshFileName profileV1 "agent") (by decide)]
    decide
  · intro hmf
    rw [countP_budget_pack]
    simp only [ENTITIES, List.map_cons, List.map_nil, List.sum_cons,
      List.sum_nil]
    rw [countP_budget_entity_doc td profileV2 512 "agent" doc 20 hmf hpc,
      countP_budget_entity_ne td profileV2 512 "location"
        (meshFileName profileV2 "agent") (by decide),
      countP_budget_entity_ne td profileV2 512 "asset"
        (meshFileName profileV2 "agent") (by decide),
      countP_budget_entity_ne td profileV2 512 "power_plant"
        (meshFileName profileV2 "agent") (by decide),
      countP_budget_entity_ne td profileV2 512 "power_storage"
        (meshFileName profileV2 "agent") (by decide)]
    decide

/-- C7 witness: the concrete zero-float export of the agent mesh placed in a
concrete theme directory under both file names evaluates to zero agent
budget violations under v1 and exactly one under v2. -/
theorem C7_witness :
    (tdC7.meshFile (meshFileName profileV1 "agent") =
        some (some agentExportZ.1) ∧
      tdC7.meshFile (meshFileName profileV2 "agent") =
        some (some agentExportZ.1) ∧
      write_gltf fmZero packZero "agent_industrial" "AgentIndustrialMesh"
          (agentMesh fmZero).vertices (agentMesh fmZero).indices =
        some (agentExportZ.1, agentExportZ.2)) ∧
    (validate_theme_pack tdC7 profileV1 256).countP
        (isVertexBudgetFor (meshFileName profileV1 "agent")) = 0 ∧
    (validate_theme_pack tdC7 profileV2 512).countP
        (isVertexBudgetFor (meshFileName profileV2 "agent")) = 1 := by
  obtain ⟨doc, buf, hw', hpc, hbuffers, hviews, hblen⟩ :=
    write_gltf_eq_some fmZero packZero "agent_industrial"
      "AgentIndustrialMesh" (agentMesh fmZero).vertices
      (agentMesh fmZero).indices (by decide) (by decide) (by decide)
      (by decide) (by decide)
  have hexp : agentExportZ = (doc, buf) := by
    unfold agentExportZ
    rw [hw']
    rfl
  have hw : write_gltf fmZero packZero "agent_industrial"
      "AgentIndustrialMesh" (agentMesh fmZero).vertices
      (agentMesh fmZero).indices = some (agentExportZ.1, agentExportZ.2) := by
    rw [hexp]
    exact hw'
  have h := (C7_agent_scenario fmZero packZero).2 agentExportZ.1
    agentExportZ.2 "agent_industrial" hw tdC7
  exact ⟨⟨rfl, rfl, hw⟩, h.1 rfl, h.2 rfl⟩

end AgentWorld
